import Mathlib

/-!
Shallow embedding of the Criminal Investigation Tracker (src/main.py):
the Flask/SQLAlchemy case–evidence handlers and the LabelEncoder /
RandomForest suspect-prediction pipeline.

Conventions of the embedding:
* A request body parsed by request.get_json() is an Option: none stands
  for an absent/None body, some data for a parsed JSON object, modelled
  as an association list of scalar values.
* Responses are a status code plus a JSON value; jsonify defaults the
  status to 200.
* Exceptions that a handler catches are modelled with Option: none is
  the raised-and-caught path.
* The RandomForest classifier itself is abstract (its training is
  unseeded and nondeterministic); it enters the model as an arbitrary
  function from the three encoded integers to a label string.
-/

/-- JSON values appearing in response bodies (what jsonify serialises). -/
inductive Json where
  | null : Json
  | num : Int → Json
  | str : String → Json
  | arr : List Json → Json
  | obj : List (String × Json) → Json
deriving Repr

/-- Scalar JSON values supplied in request bodies. -/
inductive Val where
  | vnull : Val
  | vint : Int → Val
  | vstr : String → Val
deriving Repr, DecidableEq

/-- Python truthiness of a request-body value (the test in if not x). -/
def Val.truthy : Val → Bool
  | .vnull => false
  | .vint n => n != 0
  | .vstr s => s != ""

/-- Serialisation of a stored scalar back to JSON. -/
def Val.toJson : Val → Json
  | .vnull => .null
  | .vint n => .num n
  | .vstr s => .str s

/-- Serialisation of a nullable stored scalar back to JSON. -/
def optValToJson : Option Val → Json
  | none => .null
  | some v => v.toJson

/-- dict.get(key): first binding of the key, if any. -/
def dictGet (data : List (String × Val)) (k : String) : Option Val :=
  (data.find? (fun p => p.1 == k)).map (·.2)

/-- A row of the case table (class Case in src/main.py); status is the
column the add_case handler always writes as "Open". -/
structure CaseRec where
  id : Nat
  crime_type : Option Val
  location : Option Val
  time_of_day : Option Val
  status : String
deriving Repr, DecidableEq

/-- A row of the evidence table (class Evidence); case_id is the raw
scalar stored by the handler, an integer key. -/
structure EvidenceRec where
  id : Nat
  case_id : Int
  evidence_type : Option Val
  description : Option Val
deriving Repr, DecidableEq

/-- A row of the suspect table (class Suspect). -/
structure SuspectRec where
  id : Nat
  name : Option Val
  criminal_history : Option Val
deriving Repr, DecidableEq

/-- The relational store: the three tables the modelled handlers touch. -/
structure DB where
  cases : List CaseRec
  suspects : List SuspectRec
  evidences : List EvidenceRec
deriving Repr, DecidableEq

/-- An HTTP response: status code and JSON body. -/
structure Resp where
  status : Nat
  body : Json
deriving Repr

/-- jsonify of a one-field message object. -/
def jsonMsg (s : String) : Json := .obj [("message", .str s)]

/-- jsonify of a one-field error object. -/
def jsonErr (s : String) : Json := .obj [("error", .str s)]

/-- Fresh SQLite rowid: one more than the largest id present. -/
def nextId (ids : List Nat) : Nat := ids.foldr max 0 + 1

/-- POST /add_case: reject a falsy body, otherwise insert a Case whose
fields come from dict.get and whose status is the literal "Open". -/
def add_case (db : DB) (body : Option (List (String × Val))) : Resp × DB :=
  match body with
  | none => (⟨200, jsonErr "No JSON received"⟩, db)
  | some data =>
    if data.isEmpty then (⟨200, jsonErr "No JSON received"⟩, db)
    else
      let c : CaseRec :=
        { id := nextId (db.cases.map (·.id))
          crime_type := dictGet data "crime_type"
          location := dictGet data "location"
          time_of_day := dictGet data "time_of_day"
          status := "Open" }
      (⟨200, jsonMsg "Case added successfully"⟩, { db with cases := db.cases ++ [c] })

/-- DELETE /delete_case/(int:case_id): Case.query.get, then a session
delete that cascades over Case.evidences (cascade="all, delete"),
removing every Evidence row whose case_id equals the id of the deleted case. -/
def delete_case (db : DB) (case_id : Nat) : Resp × DB :=
  match db.cases.find? (fun c => c.id == case_id) with
  | none => (⟨200, jsonErr "Case not found"⟩, db)
  | some c =>
    (⟨200, jsonMsg "Case deleted successfully"⟩,
     { db with
        cases := db.cases.filter (fun c2 => c2.id != c.id)
        evidences := db.evidences.filter (fun e => e.case_id != (c.id : Int)) })

/-- The JSON object view_evidence builds for one Evidence row. -/
def evidenceJson (e : EvidenceRec) : Json :=
  .obj [("id", .num (e.id : Int)), ("case_id", .num e.case_id),
        ("evidence_type", optValToJson e.evidence_type),
        ("description", optValToJson e.description)]

/-- GET /view_evidence/(int:case_id): all Evidence rows filtered by
case_id, serialised as a JSON array. -/
def view_evidence (db : DB) (case_id : Nat) : Resp :=
  ⟨200, .arr ((db.evidences.filter (fun e => e.case_id == (case_id : Int))).map evidenceJson)⟩

/-- The integer key a supplied scalar denotes for a primary-key lookup:
SQLite integer affinity coerces numeric strings to integers. -/
def Val.asIntKey : Val → Option Int
  | .vnull => none
  | .vint n => some n
  | .vstr s => s.toInt?

/-- Case.query.get applied to a request-body scalar. -/
def getCaseByKey (db : DB) (v : Val) : Option CaseRec :=
  match v.asIntKey with
  | some n => db.cases.find? (fun c => (c.id : Int) == n)
  | none => none

/-- POST /add_evidence: 400 on a falsy body, 400 on a missing or falsy
case_id, 404 when the case does not exist, otherwise insert. -/
def add_evidence (db : DB) (body : Option (List (String × Val))) : Resp × DB :=
  match body with
  | none => (⟨400, jsonErr "No data provided"⟩, db)
  | some data =>
    if data.isEmpty then (⟨400, jsonErr "No data provided"⟩, db)
    else
      match dictGet data "case_id" with
      | none => (⟨400, jsonErr "case_id is required"⟩, db)
      | some cid =>
        if cid.truthy then
          match getCaseByKey db cid with
          | none => (⟨404, jsonErr "Case not found"⟩, db)
          | some _ =>
            let e : EvidenceRec :=
              { id := nextId (db.evidences.map (·.id))
                case_id := cid.asIntKey.getD 0
                evidence_type := dictGet data "evidence_type"
                description := dictGet data "description" }
            (⟨200, jsonMsg "Evidence added successfully"⟩,
             { db with evidences := db.evidences ++ [e] })
        else (⟨400, jsonErr "case_id is required"⟩, db)

/-- One row of training_data.csv. -/
structure TrainRow where
  crime_type : String
  location : String
  time_of_day : String
  suspect : String
deriving Repr, DecidableEq

/-- LabelEncoder.fit over one column: classes_ is np.unique of the
column, i.e. its distinct values in lexicographic order. -/
def fitClasses (col : List String) : List String :=
  List.insertionSort (· ≤ ·) col.dedup

/-- LabelEncoder.transform on one string: its index among the fitted
classes, or none (the raised ValueError) for an unseen label. -/
def leTransform (classes : List String) (s : String) : Option Nat :=
  if s ∈ classes then some (classes.indexOf s) else none

/-- The persisted ml_model.pkl bundle: the fitted classifier and the
three fitted encoders, dumped as one tuple. -/
structure ModelBundle where
  le_crime : List String
  le_location : List String
  le_time : List String
  predictFn : Nat → Nat → Nat → String

/-- train_model: fit the three encoders on the CSV columns and persist
them with the fitted classifier clf (abstract, unseeded). -/
def train_model (rows : List TrainRow) (clf : Nat → Nat → Nat → String) : ModelBundle :=
  { le_crime := fitClasses (rows.map (·.crime_type))
    le_location := fitClasses (rows.map (·.location))
    le_time := fitClasses (rows.map (·.time_of_day))
    predictFn := clf }

/-- Process state seen by predict_suspect: the store and the bundle file
(none when ml_model.pkl does not exist). -/
structure AppState where
  db : DB
  bundle : Option ModelBundle

/-- The JSON object of a /predict_suspect request; a field is none when
the key is absent (data[k] raises KeyError). -/
structure PredictBody where
  crime_type : Option Val
  location : Option Val
  time_of_day : Option Val

/-- transform of one request field: a missing key (KeyError), a
non-string value or an unseen category (ValueError) all raise, landing
in the bare except of the handler. -/
def encodeField (classes : List String) (v : Option Val) : Option Nat :=
  match v with
  | some (.vstr s) => leTransform classes s
  | _ => none

/-- The try-block of predict_suspect: build the encoded input row; none
stands for any exception caught by the bare except (including the
TypeError of subscripting a None body). -/
def encodeInput (b : ModelBundle) (body : Option PredictBody) : Option (Nat × Nat × Nat) :=
  match body with
  | none => none
  | some d =>
    match encodeField b.le_crime d.crime_type,
          encodeField b.le_location d.location,
          encodeField b.le_time d.time_of_day with
    | some x, some y, some z => some (x, y, z)
    | _, _, _ => none

/-- POST /predict_suspect: bundle-existence check first, then the
guarded encoding, then the classifier. -/
def predict_suspect (st : AppState) (body : Option PredictBody) : Resp × AppState :=
  match st.bundle with
  | none => (⟨200, jsonErr "ML model not trained"⟩, st)
  | some b =>
    match encodeInput b body with
    | none => (⟨200, jsonErr "Invalid input values"⟩, st)
    | some (x, y, z) => (⟨200, .obj [("suspect_likely", .str (b.predictFn x y z))]⟩, st)

/-- Extract the error field of a one-field error body, for telling two
responses apart. -/
def errOfJson : Json → Option String
  | .obj (("error", .str s) :: _) => some s
  | _ => none

/-! ### Helper lemmas -/

/-- Filtering for a key after filtering that key out yields nothing. -/
theorem filter_ne_then_eq (l : List EvidenceRec) (k : Int) :
    (l.filter (fun e => e.case_id != k)).filter (fun e => e.case_id == k) = [] := by
  induction l with
  | nil => rfl
  | cons e t ih =>
    by_cases h : e.case_id = k
    · simp [List.filter_cons, h, ih]
    · simp [List.filter_cons, h, ih]

/-! ### Claims -/

/-- C1: a successful delete_case on the id of an existing Case removes that
Case and every Evidence row referencing it, and view_evidence for that
case_id on the resulting store returns the empty array. -/
theorem delete_case_cascades (db : DB) (cid : Nat)
    (h : ∃ c ∈ db.cases, c.id = cid) :
    (delete_case db cid).1 = ⟨200, jsonMsg "Case deleted successfully"⟩ ∧
    (delete_case db cid).2.cases = db.cases.filter (fun c => c.id != cid) ∧
    (delete_case db cid).2.evidences = db.evidences.filter (fun e => e.case_id != (cid : Int)) ∧
    view_evidence (delete_case db cid).2 cid = ⟨200, .arr []⟩ := by
  obtain ⟨c, hc, hcid⟩ := h
  obtain ⟨c', hfind⟩ : ∃ c', db.cases.find? (fun c2 => c2.id == cid) = some c' := by
    cases hf : db.cases.find? (fun c2 => c2.id == cid) with
    | some c2 => exact ⟨c2, rfl⟩
    | none =>
      rw [List.find?_eq_none] at hf
      exact absurd (by simp [hcid]) (hf c hc)
  have hid : c'.id = cid := by
    have := List.find?_some hfind
    simpa using this
  unfold delete_case
  rw [hfind]
  refine ⟨rfl, by simp [hid], by simp [hid], ?_⟩
  unfold view_evidence
  simp only [hid]
  rw [filter_ne_then_eq]
  rfl

/-- Store with one case (id 1) and two evidence rows referencing it. -/
def dbC1 : DB :=
  { cases := [{ id := 1, crime_type := some (.vstr "theft"),
                location := some (.vstr "downtown"),
                time_of_day := some (.vstr "night"), status := "Open" }]
    suspects := []
    evidences := [{ id := 1, case_id := 1, evidence_type := some (.vstr "fingerprint"),
                    description := some (.vstr "glass") },
                  { id := 2, case_id := 1, evidence_type := some (.vstr "dna"),
                    description := none }] }

/-- Witness for C1 at a store holding one case with two evidence rows. -/
theorem delete_case_cascades_witness :
    (delete_case dbC1 1).1 = ⟨200, jsonMsg "Case deleted successfully"⟩ ∧
    (delete_case dbC1 1).2.cases = dbC1.cases.filter (fun c => c.id != 1) ∧
    (delete_case dbC1 1).2.evidences = dbC1.evidences.filter (fun e => e.case_id != (1 : Int)) ∧
    view_evidence (delete_case dbC1 1).2 1 = ⟨200, .arr []⟩ :=
  delete_case_cascades dbC1 1 (by simp [dbC1])

/-- C2: for every non-empty add_case request body, the inserted Case has
status exactly "Open", whatever the body holds (including any supplied
status value). -/
theorem add_case_status_open (db : DB) (data : List (String × Val)) (h : data ≠ []) :
    (add_case db (some data)).1 = ⟨200, jsonMsg "Case added successfully"⟩ ∧
    ∃ c : CaseRec, (add_case db (some data)).2.cases = db.cases ++ [c] ∧ c.status = "Open" := by
  cases data with
  | nil => exact absurd rfl h
  | cons p t => exact ⟨rfl, ⟨_, rfl, rfl⟩⟩

/-- Witness for C2 at a body that supplies status "Closed". -/
theorem add_case_status_open_witness :
    (add_case ⟨[], [], []⟩ (some [("crime_type", Val.vstr "theft"), ("status", Val.vstr "Closed")])).1
      = ⟨200, jsonMsg "Case added successfully"⟩ ∧
    ∃ c : CaseRec,
      (add_case ⟨[], [], []⟩ (some [("crime_type", Val.vstr "theft"), ("status", Val.vstr "Closed")])).2.cases
        = (DB.mk [] [] []).cases ++ [c] ∧ c.status = "Open" :=
  add_case_status_open ⟨[], [], []⟩ _ (by simp)

/-- App state with no persisted bundle file. -/
def stNoModel : AppState := ⟨⟨[], [], []⟩, none⟩

/-- C6: with no persisted bundle, predict_suspect returns the
"ML model not trained" error and leaves the state untouched (no
implicit on-demand training). -/
theorem predict_without_bundle (st : AppState) (body : Option PredictBody)
    (h : st.bundle = none) :
    (predict_suspect st body).1 = ⟨200, jsonErr "ML model not trained"⟩ ∧
    (predict_suspect st body).2 = st := by
  unfold predict_suspect
  rw [h]
  exact ⟨rfl, rfl⟩

/-- Witness for C6 at a well-formed body and an untrained state. -/
theorem predict_without_bundle_witness :
    (predict_suspect stNoModel
        (some ⟨some (.vstr "theft"), some (.vstr "downtown"), some (.vstr "night")⟩)).1
      = ⟨200, jsonErr "ML model not trained"⟩ ∧
    (predict_suspect stNoModel
        (some ⟨some (.vstr "theft"), some (.vstr "downtown"), some (.vstr "night")⟩)).2
      = stNoModel :=
  predict_without_bundle stNoModel _ rfl

/-- C10: the bundle-existence check runs before any input field is read:
with the bundle absent, every request body (even none) yields the
model-not-trained error, never the invalid-input error. -/
theorem bundle_check_precedes_input (st : AppState) (h : st.bundle = none)
    (body : Option PredictBody) :
    (predict_suspect st body).1 = ⟨200, jsonErr "ML model not trained"⟩ ∧
    (predict_suspect st body).1 ≠ ⟨200, jsonErr "Invalid input values"⟩ := by
  unfold predict_suspect
  rw [h]
  refine ⟨rfl, ?_⟩
  intro hEq
  have h2 : (⟨200, jsonErr "ML model not trained"⟩ : Resp)
      = ⟨200, jsonErr "Invalid input values"⟩ := hEq
  exact absurd (congrArg (fun r => errOfJson r.body) h2) (by decide)

/-- Witness for C10 at an absent body with an untrained state. -/
theorem bundle_check_precedes_input_witness :
    (predict_suspect stNoModel none).1 = ⟨200, jsonErr "ML model not trained"⟩ ∧
    (predict_suspect stNoModel none).1 ≠ ⟨200, jsonErr "Invalid input values"⟩ :=
  bundle_check_precedes_input stNoModel rfl none

/-- An encoding attempt fails whenever one of the three supplied
categories is absent from the fitted classes of its encoder. -/
theorem encodeInput_unseen (b : ModelBundle) (d : PredictBody) (ct loc tm : String)
    (h1 : d.crime_type = some (.vstr ct)) (h2 : d.location = some (.vstr loc))
    (h3 : d.time_of_day = some (.vstr tm))
    (hunseen : ct ∉ b.le_crime ∨ loc ∉ b.le_location ∨ tm ∉ b.le_time) :
    encodeInput b (some d) = none := by
  cases e1 : encodeField b.le_crime d.crime_type with
  | none => simp only [encodeInput, e1]
  | some x =>
    cases e2 : encodeField b.le_location d.location with
    | none => simp only [encodeInput, e1, e2]
    | some y =>
      cases e3 : encodeField b.le_time d.time_of_day with
      | none => simp only [encodeInput, e1, e2, e3]
      | some z =>
        exfalso
        rcases hunseen with hu | hu | hu
        · rw [h1] at e1; simp [encodeField, leTransform, hu] at e1
        · rw [h2] at e2; simp [encodeField, leTransform, hu] at e2
        · rw [h3] at e3; simp [encodeField, leTransform, hu] at e3

/-- The invalid-input response of predict_suspect under an unseen
category, shared by the claims about the prediction error paths. -/
theorem predictUnseenAux (st : AppState) (b : ModelBundle) (d : PredictBody)
    (ct loc tm : String)
    (hb : st.bundle = some b)
    (h1 : d.crime_type = some (.vstr ct)) (h2 : d.location = some (.vstr loc))
    (h3 : d.time_of_day = some (.vstr tm))
    (hunseen : ct ∉ b.le_crime ∨ loc ∉ b.le_location ∨ tm ∉ b.le_time) :
    (predict_suspect st (some d)).1 = ⟨200, jsonErr "Invalid input values"⟩ ∧
    (predict_suspect st (some d)).2 = st := by
  have henc := encodeInput_unseen b d ct loc tm h1 h2 h3 hunseen
  simp only [predict_suspect, hb, henc]
  exact ⟨trivial, trivial⟩

/-- C4: with the bundle present, a predict_suspect request carrying a
category string unseen at training time gets the JSON error body, and
neither the store nor the bundle is mutated. -/
theorem predict_unseen_category (st : AppState) (b : ModelBundle) (d : PredictBody)
    (ct loc tm : String)
    (hb : st.bundle = some b)
    (h1 : d.crime_type = some (.vstr ct)) (h2 : d.location = some (.vstr loc))
    (h3 : d.time_of_day = some (.vstr tm))
    (hunseen : ct ∉ b.le_crime ∨ loc ∉ b.le_location ∨ tm ∉ b.le_time) :
    (predict_suspect st (some d)).1 = ⟨200, jsonErr "Invalid input values"⟩ ∧
    (predict_suspect st (some d)).2 = st :=
  predictUnseenAux st b d ct loc tm hb h1 h2 h3 hunseen

/-- A bundle fitted on one category per column. -/
def bundleW : ModelBundle := ⟨["burglary"], ["downtown"], ["night"], fun _ _ _ => "SuspectA"⟩

/-- App state whose bundle file exists. -/
def stW : AppState := ⟨⟨[], [], []⟩, some bundleW⟩

/-- A predict body whose crime_type is not among the classes of bundleW. -/
def unseenBody : PredictBody :=
  ⟨some (.vstr "arson"), some (.vstr "downtown"), some (.vstr "night")⟩

/-- Witness for C4 at a crime_type unseen during training. -/
theorem predict_unseen_category_witness :
    (predict_suspect stW (some unseenBody)).1 = ⟨200, jsonErr "Invalid input values"⟩ ∧
    (predict_suspect stW (some unseenBody)).2 = stW :=
  predict_unseen_category stW bundleW unseenBody "arson" "downtown" "night"
    rfl rfl rfl rfl (Or.inl (by decide))

/-- C5 counterexample: an unseen-category request and a malformed
(absent-body) request produce the very same error response, the body
{"error": "Invalid input values"}, so the three prediction error
conditions are not pairwise distinguishable. -/
theorem predict_error_conflation_counterexample :
    (predict_suspect stW (some unseenBody)).1 = (predict_suspect stW none).1 ∧
    (predict_suspect stW none).1 = ⟨200, jsonErr "Invalid input values"⟩ :=
  ⟨rfl, rfl⟩

/-- C5 amended: the model-missing error is surfaced distinctly, but the
unseen-category and malformed-request conditions both yield the one
response with body {"error": "Invalid input values"} and cannot be told
apart from each other. -/
theorem predict_error_partial_discrimination
    (st st2 st3 : AppState) (b b2 : ModelBundle) (d : PredictBody)
    (ct loc tm : String) (body3 : Option PredictBody)
    (hb : st.bundle = some b)
    (h1 : d.crime_type = some (.vstr ct)) (h2 : d.location = some (.vstr loc))
    (h3 : d.time_of_day = some (.vstr tm))
    (hunseen : ct ∉ b.le_crime ∨ loc ∉ b.le_location ∨ tm ∉ b.le_time)
    (hb2 : st2.bundle = some b2)
    (hb3 : st3.bundle = none) :
    (predict_suspect st (some d)).1 = (predict_suspect st2 none).1 ∧
    (predict_suspect st (some d)).1 ≠ (predict_suspect st3 body3).1 := by
  have hA := (predictUnseenAux st b d ct loc tm hb h1 h2 h3 hunseen).1
  have hB : (predict_suspect st2 none).1 = ⟨200, jsonErr "Invalid input values"⟩ := by
    simp only [predict_suspect, hb2]
    rfl
  have hC : (predict_suspect st3 body3).1 = ⟨200, jsonErr "ML model not trained"⟩ := by
    simp only [predict_suspect, hb3]
  constructor
  · rw [hA, hB]
  · rw [hA, hC]
    intro hEq
    exact absurd (congrArg (fun r => errOfJson r.body) hEq) (by decide)

/-- Witness for the amended C5 at concrete states and bodies. -/
theorem predict_error_partial_discrimination_witness :
    (predict_suspect stW (some unseenBody)).1 = (predict_suspect stW none).1 ∧
    (predict_suspect stW (some unseenBody)).1 ≠ (predict_suspect stNoModel none).1 :=
  predict_error_partial_discrimination stW stW stNoModel bundleW bundleW unseenBody
    "arson" "downtown" "night" none rfl rfl rfl rfl (Or.inl (by decide)) rfl rfl

/-- C3 counterexample: in a store with no cases at all, the request
body with case_id 0 — a case_id resolving to no existing Case — is
answered with the 400 "case_id is required" response, not with the
not-found response. -/
theorem add_evidence_zero_key_counterexample :
    (add_evidence ⟨[], [], []⟩ (some [("case_id", Val.vint 0)])).1.status = 400 ∧
    (add_evidence ⟨[], [], []⟩ (some [("case_id", Val.vint 0)])).1.body
      = jsonErr "case_id is required" ∧
    (add_evidence ⟨[], [], []⟩ (some [("case_id", Val.vint 0)])).1.status ≠ 404 ∧
    (⟨[], [], []⟩ : DB).cases = [] :=
  ⟨rfl, rfl, by decide, rfl⟩

/-- C3 amended: for every add_evidence request whose body supplies a
truthy case_id that does not resolve to an existing Case, the handler
returns the 404 "Case not found" response and leaves the store — in
particular the Evidence table — unchanged. -/
theorem add_evidence_case_not_found (db : DB) (data : List (String × Val)) (v : Val)
    (h1 : dictGet data "case_id" = some v) (h2 : v.truthy = true)
    (h3 : getCaseByKey db v = none) :
    (add_evidence db (some data)).1 = ⟨404, jsonErr "Case not found"⟩ ∧
    (add_evidence db (some data)).2 = db := by
  cases data with
  | nil => simp [dictGet] at h1
  | cons p t =>
    simp only [add_evidence, List.isEmpty_cons, Bool.false_eq_true, if_false, h1, h2, h3,
      if_true]
    exact ⟨trivial, trivial⟩

/-- Witness for the amended C3 at an empty store and case_id 7. -/
theorem add_evidence_case_not_found_witness :
    (add_evidence ⟨[], [], []⟩ (some [("case_id", Val.vint 7)])).1
      = ⟨404, jsonErr "Case not found"⟩ ∧
    (add_evidence ⟨[], [], []⟩ (some [("case_id", Val.vint 7)])).2 = ⟨[], [], []⟩ :=
  add_evidence_case_not_found ⟨[], [], []⟩ _ (Val.vint 7) rfl rfl rfl

/-- C9: with the bundle present, predict_suspect is total over all
request bodies: a 200 response whose body is either the catch-all
{"error": "Invalid input values"} or a suspect_likely prediction. -/
theorem predict_total_when_trained (st : AppState) (b : ModelBundle)
    (body : Option PredictBody) (hb : st.bundle = some b) :
    (predict_suspect st body).1.status = 200 ∧
    ((predict_suspect st body).1.body = jsonErr "Invalid input values" ∨
      ∃ s, (predict_suspect st body).1.body = .obj [("suspect_likely", .str s)]) := by
  simp only [predict_suspect, hb]
  cases h : encodeInput b body with
  | none => exact ⟨rfl, .inl rfl⟩
  | some t =>
    obtain ⟨x, y, z⟩ := t
    exact ⟨rfl, .inr ⟨_, rfl⟩⟩

/-- Witness for C9 at an absent body with a trained state. -/
theorem predict_total_when_trained_witness :
    (predict_suspect stW none).1.status = 200 ∧
    ((predict_suspect stW none).1.body = jsonErr "Invalid input values" ∨
      ∃ s, (predict_suspect stW none).1.body = .obj [("suspect_likely", .str s)]) :=
  predict_total_when_trained stW bundleW none rfl

/-- C7: delete_case reports a missing id as a 200-status JSON body with
an "error" key, while add_evidence reports a missing body or case_id
with HTTP 400 and an unresolvable case_id with HTTP 404. -/
theorem error_status_convention (db : DB) (cid : Nat) (data : List (String × Val)) (v : Val) :
    ((∀ c ∈ db.cases, c.id ≠ cid) →
      (delete_case db cid).1.status = 200 ∧
      (delete_case db cid).1.body = jsonErr "Case not found") ∧
    ((add_evidence db none).1.status = 400) ∧
    (dictGet data "case_id" = none → (add_evidence db (some data)).1.status = 400) ∧
    (dictGet data "case_id" = some v → v.truthy = false →
      (add_evidence db (some data)).1.status = 400) ∧
    (dictGet data "case_id" = some v → v.truthy = true → getCaseByKey db v = none →
      (add_evidence db (some data)).1.status = 404) := by
  refine ⟨?_, rfl, ?_, ?_, ?_⟩
  · intro hnone
    have hfind : db.cases.find? (fun c => c.id == cid) = none := by
      rw [List.find?_eq_none]
      intro c hc
      simp [hnone c hc]
    unfold delete_case
    rw [hfind]
    exact ⟨rfl, rfl⟩
  · intro hget
    cases data with
    | nil => rfl
    | cons p t => simp [add_evidence, hget]
  · intro hget htr
    cases data with
    | nil => simp [dictGet] at hget
    | cons p t => simp [add_evidence, hget, htr]
  · intro hget htr hcase
    cases data with
    | nil => simp [dictGet] at hget
    | cons p t => simp [add_evidence, hget, htr, hcase]

/-- Witness for C7: the absent-id delete and the three add_evidence
error paths at concrete stores and bodies. -/
theorem error_status_convention_witness :
    ((delete_case ⟨[], [], []⟩ 1).1.status = 200 ∧
      (delete_case ⟨[], [], []⟩ 1).1.body = jsonErr "Case not found") ∧
    (add_evidence ⟨[], [], []⟩ none).1.status = 400 ∧
    (add_evidence ⟨[], [], []⟩ (some [("evidence_type", Val.vstr "print")])).1.status = 400 ∧
    (add_evidence ⟨[], [], []⟩ (some [("case_id", Val.vint 0)])).1.status = 400 ∧
    (add_evidence ⟨[], [], []⟩ (some [("case_id", Val.vint 7)])).1.status = 404 := by
  refine ⟨?_, ?_, ?_, ?_, ?_⟩
  · exact (error_status_convention ⟨[], [], []⟩ 1 [] Val.vnull).1 (by simp)
  · exact (error_status_convention ⟨[], [], []⟩ 1 [] Val.vnull).2.1
  · exact (error_status_convention ⟨[], [], []⟩ 1
      [("evidence_type", Val.vstr "print")] Val.vnull).2.2.1 rfl
  · exact (error_status_convention ⟨[], [], []⟩ 1
      [("case_id", Val.vint 0)] (Val.vint 0)).2.2.2.1 rfl rfl
  · exact (error_status_convention ⟨[], [], []⟩ 1
      [("case_id", Val.vint 7)] (Val.vint 7)).2.2.2.2 rfl rfl rfl

/-! ### The label-encoder contract (C8) -/

/-- Contract of one fitted encoder with classes cs over a training
column col: the classes are the distinct values of the column in strictly
increasing lexicographic order, and transform is a bijection from them
onto the contiguous range [0, k), monotone in the string order. -/
def encoderSpec (col cs : List String) : Prop :=
  cs.Sorted (· < ·) ∧
  (∀ v, v ∈ cs ↔ v ∈ col) ∧
  cs.length = col.dedup.length ∧
  (∀ v ∈ cs, leTransform cs v = some (cs.indexOf v) ∧ cs.indexOf v < cs.length) ∧
  (∀ v, v ∉ cs → leTransform cs v = none) ∧
  (∀ v w, v ∈ cs → w ∈ cs → cs.indexOf v = cs.indexOf w → v = w) ∧
  (∀ i, i < cs.length → ∃ v ∈ cs, cs.indexOf v = i) ∧
  (∀ v w, v ∈ cs → w ∈ cs → v < w → cs.indexOf v < cs.indexOf w)

/-- The fitted classes are a permutation of the distinct column
values. -/
theorem fitClasses_perm (col : List String) : List.Perm (fitClasses col) col.dedup :=
  List.perm_insertionSort _ _

/-- The fitted classes hold no duplicates. -/
theorem fitClasses_nodup (col : List String) : (fitClasses col).Nodup :=
  (fitClasses_perm col).symm.nodup (List.nodup_dedup col)

/-- The fitted classes are weakly sorted. -/
theorem fitClasses_sorted_le (col : List String) : (fitClasses col).Sorted (· ≤ ·) :=
  List.sorted_insertionSort _ _

/-- The fitted classes are strictly sorted: the lexicographic order of
np.unique, with no repeats. -/
theorem fitClasses_sorted_lt (col : List String) : (fitClasses col).Sorted (· < ·) :=
  ((fitClasses_sorted_le col).and (fitClasses_nodup col)).imp
    (fun h => lt_of_le_of_ne h.1 h.2)

/-- Membership in the fitted classes is membership in the column. -/
theorem fitClasses_mem (col : List String) (v : String) :
    v ∈ fitClasses col ↔ v ∈ col := by
  rw [(fitClasses_perm col).mem_iff, List.mem_dedup]

/-- k is the number of distinct categories of the column. -/
theorem fitClasses_length (col : List String) :
    (fitClasses col).length = col.dedup.length :=
  (fitClasses_perm col).length_eq

/-- One fitted encoder satisfies the full encoder contract. -/
theorem fitClasses_encoderSpec (col : List String) :
    encoderSpec col (fitClasses col) := by
  refine ⟨fitClasses_sorted_lt col, fitClasses_mem col, fitClasses_length col,
    ?_, ?_, ?_, ?_, ?_⟩
  · intro v hv
    exact ⟨by simp [leTransform, hv], List.indexOf_lt_length.mpr hv⟩
  · intro v hv
    simp [leTransform, hv]
  · intro v w hv hw hidx
    exact (List.indexOf_inj hv hw).mp hidx
  · intro i hi
    exact ⟨(fitClasses col).get ⟨i, hi⟩, List.get_mem _ _ hi,
      List.indexOf_getElem (fitClasses_nodup col) i hi⟩
  · intro v w hv hw hvw
    have hvlt := List.indexOf_lt_length.mpr hv
    have hwlt := List.indexOf_lt_length.mpr hw
    by_contra hnot
    rcases Nat.lt_or_ge ((fitClasses col).indexOf w) ((fitClasses col).indexOf v) with hlt | hge
    · have hrel := List.Sorted.rel_get_of_lt (fitClasses_sorted_lt col)
        (a := ⟨(fitClasses col).indexOf w, hwlt⟩)
        (b := ⟨(fitClasses col).indexOf v, hvlt⟩) hlt
      rw [List.indexOf_get, List.indexOf_get] at hrel
      exact absurd (hvw.trans hrel) (lt_irrefl v)
    · have heq : (fitClasses col).indexOf v = (fitClasses col).indexOf w :=
        Nat.le_antisymm hge (Nat.le_of_not_lt hnot)
      have hveqw := (List.indexOf_inj hv hw).mp heq
      rw [hveqw] at hvw
      exact absurd hvw (lt_irrefl w)

/-- C8: for every training dataset, each of the three encoders fitted
by train_model is a bijection from the distinct category
strings onto the contiguous range [0, k), with the integers assigned in
lexicographic order of the strings. -/
theorem train_model_encoders_bijective (rows : List TrainRow) (clf : Nat → Nat → Nat → String) :
    encoderSpec (rows.map (·.crime_type)) (train_model rows clf).le_crime ∧
    encoderSpec (rows.map (·.location)) (train_model rows clf).le_location ∧
    encoderSpec (rows.map (·.time_of_day)) (train_model rows clf).le_time :=
  ⟨fitClasses_encoderSpec _, fitClasses_encoderSpec _, fitClasses_encoderSpec _⟩
